import Mathlib

/-!
Shallow embedding of `selfdrive/controls/lib/latcontrol_torque.py`
(`LatControlTorque`), the torque-based lateral control law.

Python floats are modelled as exact rationals (`ℚ`).  External
collaborators that are part of this repository but absent from the
source tree (`pid.PIDController`, `common.numpy_fast.interp`,
`latcontrol.MIN_STEER_SPEED`, `latcontrol.LatControl._check_saturation`,
`vehicle_model.ACCELERATION_DUE_TO_GRAVITY`, `common.params.Params`)
are modelled from the specification, each marked in its doc comment.
The vehicle model `VM.calc_curvature` is an external kinematic model and
is passed in as an abstract function.
-/

set_option linter.unusedVariables false

namespace LatTorque

/-- Modelled from the spec: `clip` of the common utilities (not in src/),
clamping a value into `[lo, hi]`. -/
def clip (x lo hi : ℚ) : ℚ := min (max x lo) hi

/-- Modelled from the spec: `common.numpy_fast.interp` (not in src/)
restricted to two breakpoints, as used everywhere in this file: linear
interpolation of `x` over breakpoints `[x0, x1] → [y0, y1]`, clamped at
the ends (value `y0` for `x ≤ x0`, value `y1` for `x ≥ x1`). -/
def interp2 (x x0 x1 y0 y1 : ℚ) : ℚ :=
  if x ≤ x0 then y0
  else if x1 ≤ x then y1
  else y0 + (x - x0) * (y1 - y0) / (x1 - x0)

/-- Modelled from the spec: the minimum-steer-speed activation gate of
`latcontrol.py` (not in src/); a small positive speed threshold
(0.3 m/s in the upstream base the spec describes). -/
def MIN_STEER_SPEED : ℚ := 0.3

/-- Modelled from the spec: the gravitational-acceleration constant of
`vehicle_model.py` (not in src/). -/
def ACCELERATION_DUE_TO_GRAVITY : ℚ := 9.81

/-- `FRICTION_THRESHOLD = 0.2` (latcontrol_torque.py line 22). -/
def FRICTION_THRESHOLD : ℚ := 0.2

/-- State of the generic PID controller (`pid.PIDController`, not in
src/; contract modelled from the spec §4.1): gains, saturation limits,
and the last-computed p/i/d/f terms (the integral accumulator is `i`). -/
structure PIDState where
  k_p : ℚ
  k_i : ℚ
  k_f : ℚ
  pos_limit : ℚ
  neg_limit : ℚ
  p : ℚ
  i : ℚ
  d : ℚ
  f : ℚ
  deriving DecidableEq

/-- Modelled from the spec: `PIDController(k_p, k_i, k_f=…, pos_limit=…,
neg_limit=…)` — a freshly constructed controller with the given gains and
limits and a cleared integral accumulator and term history. -/
def mkPIDController (kp ki kf pos neg : ℚ) : PIDState :=
  { k_p := kp, k_i := ki, k_f := kf, pos_limit := pos, neg_limit := neg,
    p := 0, i := 0, d := 0, f := 0 }

/-- Modelled from the spec: the cycle period used by the integral
accumulation (fixed control rate of 100 Hz in the upstream base). -/
def i_rate : ℚ := 1 / 100

/-- Modelled from the spec §4.1: `PIDController.update(error, feedforward,
speed, freeze_integrator)`.  Proportional term `p_gain × error`,
feedforward term `f_gain × feedforward`; the integral accumulates
`i_gain × error × cycle_period` unless frozen, the running sum being
clamped so that p+i+f stays within `[neg_limit, pos_limit]` (anti-windup
by clamped accumulation); output is `clip(p + i + f, neg_limit,
pos_limit)`; the d term is always 0 here (no derivative gain is
configured).  Returns the updated controller state and the output. -/
def pidUpdate (st : PIDState) (error feedforward speed : ℚ)
    (freeze_integrator : Bool) : PIDState × ℚ :=
  let p := error * st.k_p
  let f := feedforward * st.k_f
  let i :=
    if freeze_integrator then st.i
    else clip (st.i + error * st.k_i * i_rate)
      (st.neg_limit - p - f) (st.pos_limit - p - f)
  let control := clip (p + i + f) st.neg_limit st.pos_limit
  ({ st with p := p, i := i, d := 0, f := f }, control)

/-- The fields of `CS` read by `LatControlTorque.update`. -/
structure CarState where
  vEgo : ℚ
  steeringAngleDeg : ℚ
  steeringPressed : Bool
  steeringRateLimited : Bool
  deriving DecidableEq

/-- The fields of the `params` argument (road-geometry live parameters)
read by `LatControlTorque.update`. -/
structure LiveParams where
  angleOffsetDeg : ℚ
  roll : ℚ
  deriving DecidableEq

/-- Modelled from the spec: the persisted key-value configuration store
(`common.params.Params`, not in src/), restricted to the keys this file
reads.  Numeric strings are represented by their exact decimal value
(`Decimal(s)` in the source parses them exactly). -/
structure ParamsStore where
  customLateralTune : Bool
  torqueMaxLatAccel : ℚ
  torqueUseSteeringAngle : Bool
  torqueFriction : ℚ
  deriving DecidableEq

/-- The mutable instance state of `LatControlTorque`. -/
structure LatState where
  pid : PIDState
  steer_max : ℚ
  use_steering_angle : Bool
  friction : ℚ
  mpc_frame : ℕ
  custom_tune : Bool
  custom_tune_timer : ℕ
  deriving DecidableEq

/-- `log.ControlsState.LateralTorqueState.new_message()`: a fresh
diagnostic record, all fields at their defaults. -/
structure PidLog where
  active : Bool
  error : ℚ
  p : ℚ
  i : ℚ
  d : ℚ
  f : ℚ
  output : ℚ
  saturated : Bool
  deriving DecidableEq

/-- A fresh diagnostic record (all fields default: false / 0). -/
def newPidLog : PidLog :=
  { active := false, error := 0, p := 0, i := 0, d := 0, f := 0,
    output := 0, saturated := false }

/-- `LatControlTorque.__init__`: pid built from the car's torque tuning
with limits ±1.0, `steer_max = 1.0` (and the pid limits re-set to
±`steer_max`), flags and friction from the tuning, counters zeroed. -/
def mkLatControlTorque (kp ki kf : ℚ) (useSteeringAngle : Bool)
    (friction : ℚ) : LatState :=
  { pid := mkPIDController kp ki kf 1 (-1), steer_max := 1,
    use_steering_angle := useSteeringAngle, friction := friction,
    mpc_frame := 0, custom_tune := false, custom_tune_timer := 0 }

/-- `LatControlTorque.live_tune` (lines 46–56): increment `mpc_frame`;
every time it reaches a multiple of 300, re-read the three stored values
(`Decimal` scaling by 0.1 and 0.01 is exact), update the flags, replace
the pid with a freshly constructed one with gains `2/mla`, `1/mla`,
`0.5/mla` and limits ±1.0, and reset `mpc_frame` to 0.  (The source's
`CP` parameter is unused in the body and omitted here.) -/
def live_tune (st : LatState) (store : ParamsStore) : LatState :=
  let mpc_frame := st.mpc_frame + 1
  if mpc_frame % 300 = 0 then
    let torque_max_lat_accel := store.torqueMaxLatAccel * 0.1
    let torque_use_steering_angle := store.torqueUseSteeringAngle
    let torque_friction := store.torqueFriction * 0.01
    { st with
      use_steering_angle := torque_use_steering_angle,
      friction := torque_friction,
      pid := mkPIDController (2 / torque_max_lat_accel)
        (1 / torque_max_lat_accel) (0.5 / torque_max_lat_accel) 1 (-1),
      mpc_frame := 0 }
  else
    { st with mpc_frame := mpc_frame }

/-- Lines 72–77: the actual-curvature estimate.  If `use_steering_angle`,
the negated kinematic-model curvature; otherwise the interpolation over
speed on breakpoints `[2.0, 5.0]` between the negated model curvature and
`yaw_rate / vEgo`.  `VM_calc_curvature` is the external kinematic model
(modelled from the spec §4.2 as an abstract function of the corrected
steering angle, speed and roll; the call site's degree-to-radian
conversion is absorbed into the abstract model function, which every
theorem quantifies over). -/
def actualCurvature (use_steering_angle : Bool)
    (VM_calc_curvature : ℚ → ℚ → ℚ → ℚ) (CS : CarState)
    (params : LiveParams) (llk_yawRate : ℚ) : ℚ :=
  if use_steering_angle then
    -(VM_calc_curvature (CS.steeringAngleDeg - params.angleOffsetDeg)
      CS.vEgo params.roll)
  else
    let actual_curvature_vm :=
      -(VM_calc_curvature (CS.steeringAngleDeg - params.angleOffsetDeg)
        CS.vEgo params.roll)
    let actual_curvature_llk := llk_yawRate / CS.vEgo
    interp2 CS.vEgo 2 5 actual_curvature_vm actual_curvature_llk

/-- Line 95: `interp(error, [-FRICTION_THRESHOLD, FRICTION_THRESHOLD],
[-self.friction, self.friction])`. -/
def frictionCompensation (error friction : ℚ) : ℚ :=
  interp2 error (-FRICTION_THRESHOLD) FRICTION_THRESHOLD (-friction) friction

/-- Modelled from the spec §4.5: `LatControl._check_saturation`
(`latcontrol.py`, not in src/) — the diagnostic saturation flag reports
the instantaneous at-limit condition computed by the caller. -/
def check_saturation (saturated : Bool) (CS : CarState) : Bool := saturated

/-- `LatControlTorque.update` (lines 58–107).  Returns the updated
instance state together with the returned triple
`(-output_torque, 0.0, pid_log)`.  The source's `CP` and
`last_actuators` parameters are unused in the body and omitted; the
configuration store's state for this cycle is passed as `store`; the
only field of `llk` that is read, `angularVelocityCalibrated.value[2]`,
is passed as `llk_yawRate`. -/
def update (st : LatState) (active : Bool) (CS : CarState)
    (VM_calc_curvature : ℚ → ℚ → ℚ → ℚ) (params : LiveParams)
    (store : ParamsStore) (desired_curvature desired_curvature_rate : ℚ)
    (llk_yawRate : ℚ) : LatState × (ℚ × ℚ × PidLog) :=
  let custom_tune_timer := st.custom_tune_timer + 1
  let st :=
    if custom_tune_timer > 100 then
      { st with custom_tune_timer := 0,
                custom_tune := store.customLateralTune }
    else
      { st with custom_tune_timer := custom_tune_timer }
  let st := if st.custom_tune then live_tune st store else st
  if CS.vEgo < MIN_STEER_SPEED ∨ active = false then
    let output_torque : ℚ := 0
    (st, (-output_torque, 0, { newPidLog with active := false }))
  else
    let actual_curvature :=
      actualCurvature st.use_steering_angle VM_calc_curvature CS params
        llk_yawRate
    let desired_lateral_accel := desired_curvature * CS.vEgo ^ 2
    let _desired_lateral_jerk := desired_curvature_rate * CS.vEgo ^ 2
    let actual_lateral_accel := actual_curvature * CS.vEgo ^ 2
    let low_speed_factor := interp2 CS.vEgo 0 15 500 0
    let setpoint := desired_lateral_accel + low_speed_factor * desired_curvature
    let measurement := actual_lateral_accel + low_speed_factor * actual_curvature
    let error := setpoint - measurement
    let ff := desired_lateral_accel - params.roll * ACCELERATION_DUE_TO_GRAVITY
    let freeze_integrator := CS.steeringRateLimited || CS.steeringPressed ||
      decide (CS.vEgo < 5)
    let pidres := pidUpdate st.pid error ff CS.vEgo freeze_integrator
    let pid := pidres.1
    let output_torque := pidres.2 + frictionCompensation error st.friction
    let st := { st with pid := pid }
    let pid_log : PidLog :=
      { active := true, error := error, p := pid.p, i := pid.i,
        d := pid.d, f := pid.f, output := -output_torque,
        saturated := check_saturation
          (decide (st.steer_max - |output_torque| < 1e-3)) CS }
    (st, (-output_torque, 0, pid_log))

end LatTorque

namespace LatTorque

/-! Helper lemmas shared by the claim theorems. -/

lemma clip_le (x lo hi : ℚ) : clip x lo hi ≤ hi := min_le_right _ _

lemma le_clip (x lo hi : ℚ) (h : lo ≤ hi) : lo ≤ clip x lo hi :=
  le_min (le_max_right _ _) h

lemma abs_pidUpdate_out_le_one (p : PIDState) (e f v : ℚ) (frz : Bool)
    (hp : p.pos_limit = 1) (hn : p.neg_limit = -1) :
    |(pidUpdate p e f v frz).2| ≤ 1 := by
  simp only [pidUpdate, hp, hn]
  exact abs_le.mpr ⟨le_clip _ _ _ (by norm_num), clip_le _ _ _⟩

lemma friction_threshold_eq : FRICTION_THRESHOLD = 1 / 5 := by
  norm_num [FRICTION_THRESHOLD]

lemma abs_frictionCompensation_le (e fr : ℚ) :
    |frictionCompensation e fr| ≤ |fr| := by
  unfold frictionCompensation interp2
  rw [friction_threshold_eq]
  split_ifs with h1 h2
  · simp [abs_neg]
  · exact le_refl _
  · push_neg at h1 h2
    rw [show -fr + (e - -(1 / 5)) * (fr - -fr) / (1 / 5 - -(1 / 5)) =
        5 * fr * e from by ring, abs_le]
    have ha : fr ≤ |fr| := le_abs_self fr
    have hb : -|fr| ≤ fr := neg_abs_le fr
    constructor
    · nlinarith [mul_nonneg (by linarith : (0 : ℚ) ≤ 1 / 5 - e)
          (by linarith : (0 : ℚ) ≤ |fr| - fr),
        mul_nonneg (by linarith : (0 : ℚ) ≤ e + 1 / 5)
          (by linarith : (0 : ℚ) ≤ |fr| + fr)]
    · nlinarith [mul_nonneg (by linarith : (0 : ℚ) ≤ 1 / 5 - e)
          (by linarith : (0 : ℚ) ≤ |fr| + fr),
        mul_nonneg (by linarith : (0 : ℚ) ≤ e + 1 / 5)
          (by linarith : (0 : ℚ) ≤ |fr| - fr)]

/-! Concrete fixtures used by witnesses and counterexamples. -/

/-- A configuration store with custom tuning disabled. -/
def store0 : ParamsStore := ⟨false, 0, false, 0⟩

/-- Zero road-geometry parameters. -/
def lp0 : LiveParams := ⟨0, 0⟩

/-- A kinematic model returning curvature 0 everywhere. -/
def VM0 : ℚ → ℚ → ℚ → ℚ := fun _ _ _ => 0

/-- A vehicle state at speed 10 m/s, no driver interaction. -/
def CSC1 : CarState := ⟨10, 0, false, false⟩

/-- C10: for any two calls from the same state whose inputs differ only in
`desired_curvature_rate`, the returned torque command, angle command, and
every field of the diagnostic record are identical, and the resulting
controller states are identical: `desired_curvature_rate` is only used to
compute `desired_lateral_jerk`, which is never read afterwards. -/
theorem curvature_rate_noninterference (st : LatState) (active : Bool)
    (CS : CarState) (VM : ℚ → ℚ → ℚ → ℚ) (lp : LiveParams)
    (store : ParamsStore) (dc r1 r2 yaw : ℚ) :
    update st active CS VM lp store dc r1 yaw =
      update st active CS VM lp store dc r2 yaw := rfl

/-- C9: the division `yaw_rate / CS.vEgo` in `update` occurs only in the
branch guarded by `¬(CS.vEgo < MIN_STEER_SPEED) ∧ active`; under that
guard the denominator is bounded below by `MIN_STEER_SPEED > 0`, hence
non-zero. -/
theorem yaw_rate_division_guard (CS : CarState)
    (h : ¬(CS.vEgo < MIN_STEER_SPEED)) :
    0 < MIN_STEER_SPEED ∧ MIN_STEER_SPEED ≤ CS.vEgo ∧ CS.vEgo ≠ 0 := by
  have h1 : (0 : ℚ) < MIN_STEER_SPEED := by norm_num [MIN_STEER_SPEED]
  have h2 : MIN_STEER_SPEED ≤ CS.vEgo := not_lt.mp h
  exact ⟨h1, h2, (lt_of_lt_of_le h1 h2).ne'⟩

/-- Witness for C9 at the concrete vehicle state `CSC1` (speed 10). -/
theorem yaw_rate_division_guard_witness :
    0 < MIN_STEER_SPEED ∧ MIN_STEER_SPEED ≤ CSC1.vEgo ∧ CSC1.vEgo ≠ 0 :=
  yaw_rate_division_guard CSC1 (by norm_num [CSC1, MIN_STEER_SPEED])

/-- C7: the friction bias is `friction × error / 0.2` for
`|error| ≤ FRICTION_THRESHOLD = 0.2`, and exactly `+friction`
(resp. `-friction`) for `error ≥ 0.2` (resp. `error ≤ -0.2`). -/
theorem friction_compensation_piecewise (e fr : ℚ) :
    (|e| ≤ FRICTION_THRESHOLD →
      frictionCompensation e fr = fr * e / FRICTION_THRESHOLD) ∧
    (FRICTION_THRESHOLD ≤ e → frictionCompensation e fr = fr) ∧
    (e ≤ -FRICTION_THRESHOLD → frictionCompensation e fr = -fr) := by
  unfold frictionCompensation interp2
  rw [friction_threshold_eq]
  refine ⟨?_, ?_, ?_⟩
  · intro h
    rw [abs_le] at h
    split_ifs with h1 h2
    · have he : e = -(1 / 5) := le_antisymm h1 h.1
      rw [he]; ring
    · have he : e = 1 / 5 := le_antisymm h.2 h2
      rw [he]; ring
    · ring
  · intro h
    split_ifs with h1
    · exfalso; linarith
    · rfl
  · intro h
    split_ifs
    rfl

/-- Witness for C7 at `error = 1/10`, `friction = 3/10` (interior case):
the bias is `(3/10) × (1/10) / (1/5) = 3/20`. -/
theorem friction_compensation_piecewise_witness :
    frictionCompensation (1 / 10) (3 / 10) = 3 / 20 := by
  have h := (friction_compensation_piecewise (1 / 10) (3 / 10)).1
    (by rw [friction_threshold_eq, abs_le]; norm_num)
  rw [h, friction_threshold_eq]; norm_num

end LatTorque

namespace LatTorque

/-- C5: with `use_steering_angle = false`, the actual curvature is the
interpolation over speed with breakpoints `[2.0, 5.0]` between the
negated kinematic-model curvature and `yaw_rate / speed`: at speed ≤ 2.0
exactly the negated model curvature, at speed ≥ 5.0 exactly the yaw-rate
curvature, and the linear-in-speed blend of the two in between; with
`use_steering_angle = true`, the negated model curvature directly. -/
theorem actual_curvature_blend (VM : ℚ → ℚ → ℚ → ℚ) (CS : CarState)
    (lp : LiveParams) (yaw : ℚ) :
    actualCurvature true VM CS lp yaw =
      -(VM (CS.steeringAngleDeg - lp.angleOffsetDeg) CS.vEgo lp.roll) ∧
    (CS.vEgo ≤ 2 → actualCurvature false VM CS lp yaw =
      -(VM (CS.steeringAngleDeg - lp.angleOffsetDeg) CS.vEgo lp.roll)) ∧
    (5 ≤ CS.vEgo → actualCurvature false VM CS lp yaw = yaw / CS.vEgo) ∧
    (2 < CS.vEgo → CS.vEgo < 5 → actualCurvature false VM CS lp yaw =
      -(VM (CS.steeringAngleDeg - lp.angleOffsetDeg) CS.vEgo lp.roll) +
        (CS.vEgo - 2) *
          (yaw / CS.vEgo -
            -(VM (CS.steeringAngleDeg - lp.angleOffsetDeg) CS.vEgo lp.roll)) /
          3) := by
  refine ⟨rfl, ?_, ?_, ?_⟩
  · intro h
    unfold actualCurvature interp2
    simp only [Bool.false_eq_true, if_false]
    rw [if_pos h]
  · intro h
    unfold actualCurvature interp2
    simp only [Bool.false_eq_true, if_false]
    rw [if_neg (by linarith), if_pos h]
  · intro h1 h2
    unfold actualCurvature interp2
    simp only [Bool.false_eq_true, if_false]
    rw [if_neg (by linarith), if_neg (by linarith)]
    ring

/-- A kinematic model returning curvature −1 everywhere (so the negated
model curvature is 1), used by the C5 witness. -/
def VMneg1 : ℚ → ℚ → ℚ → ℚ := fun _ _ _ => -1

/-- A vehicle state at speed 3 m/s, used by the C5 witness. -/
def CSC5 : CarState := ⟨3, 0, false, false⟩

/-- Witness for C5 in the interior of the blend: at speed 3 with negated
model curvature 1 and yaw rate 6 (so yaw curvature 2), the estimate is
`1 + (3 − 2)·(2 − 1)/3 = 4/3`. -/
theorem actual_curvature_blend_witness :
    actualCurvature false VMneg1 CSC5 lp0 6 = 4 / 3 := by
  have h := (actual_curvature_blend VMneg1 CSC5 lp0 6).2.2.2
    (by norm_num [CSC5]) (by norm_num [CSC5])
  rw [h]
  norm_num [VMneg1, CSC5, lp0]

end LatTorque

namespace LatTorque

lemma live_tune_steer_max (st : LatState) (store : ParamsStore) :
    (live_tune st store).steer_max = st.steer_max := by
  simp only [live_tune]
  split_ifs <;> rfl

/-- C8 (amended): in the Active state the diagnostic saturated flag is
true iff `steer_max − |output_torque| < 1e-3`, i.e. iff
`|output_torque| > max_torque − 1e-3` — a strict inequality, not the
claimed non-strict `≥`. -/
theorem saturation_flag_strict (st : LatState) (CS : CarState)
    (VM : ℚ → ℚ → ℚ → ℚ) (lp : LiveParams) (store : ParamsStore)
    (dc dcr yaw : ℚ) (hv : ¬(CS.vEgo < MIN_STEER_SPEED))
    (hs : st.steer_max = 1) :
    ((update st true CS VM lp store dc dcr yaw).2.2.2.saturated = true ↔
      1 - |(update st true CS VM lp store dc dcr yaw).2.1| < 1 / 1000) := by
  simp only [update, check_saturation]
  rw [if_neg (by simp [hv])]
  split_ifs with h1 h2 h3
  · simp only [live_tune_steer_max, hs, abs_neg, decide_eq_true_eq]
    norm_num
  · simp only [hs, abs_neg, decide_eq_true_eq]
    norm_num
  · simp only [live_tune_steer_max, hs, abs_neg, decide_eq_true_eq]
    norm_num
  · simp only [hs, abs_neg, decide_eq_true_eq]
    norm_num

/-- Controller for the C8 counterexample: `k_p = 1`, `k_i = 0`,
`k_f = 999/1000`, no friction. -/
def stC8 : LatState := mkLatControlTorque 1 0 (999 / 1000) true 0

/-- Road geometry for the C8 counterexample: roll `−100/981`, so the
feedforward is exactly 1 and the output exactly `999/1000`. -/
def lpC8 : LiveParams := ⟨0, -(100 / 981)⟩

/-- Controller for the C8 witness: `k_f = 1`, no friction. -/
def stC8w : LatState := mkLatControlTorque 0 0 1 true 0

/-- Road geometry for the C8 witness: roll −1, giving a feedforward of
9.81 and a saturated output of 1. -/
def lpC8w : LiveParams := ⟨0, -1⟩

/-- Witness for C8 (amended): a concrete Active cycle whose output is
pinned at the limit 1 reports `saturated = true`. -/
theorem saturation_flag_strict_witness :
    (update stC8w true CSC1 VM0 lpC8w store0 0 0 0).2.2.2.saturated = true := by
  refine (saturation_flag_strict stC8w CSC1 VM0 lpC8w store0 0 0 0
    (by norm_num [CSC1, MIN_STEER_SPEED])
    (by norm_num [stC8w, mkLatControlTorque])).mpr ?_
  norm_num [update, mkLatControlTorque, mkPIDController, actualCurvature,
    interp2, frictionCompensation, pidUpdate, clip, live_tune,
    check_saturation, MIN_STEER_SPEED, FRICTION_THRESHOLD,
    ACCELERATION_DUE_TO_GRAVITY, i_rate, newPidLog, stC8w, CSC1, VM0,
    lpC8w, store0, abs, max_def]

/-- Counterexample to C8 as stated: a concrete Active cycle with
`|output_torque| = 999/1000 = max_torque − 1e-3` exactly (so the claimed
`≥` condition holds), yet the saturated flag is false, because the code
tests the strict inequality `steer_max − |output| < 1e-3`. -/
theorem saturation_flag_boundary :
    (update stC8 true CSC1 VM0 lpC8 store0 0 0 0).2.2.2.active = true ∧
    1 - 1 / 1000 ≤ |(update stC8 true CSC1 VM0 lpC8 store0 0 0 0).2.1| ∧
    (update stC8 true CSC1 VM0 lpC8 store0 0 0 0).2.2.2.saturated = false := by
  norm_num [update, mkLatControlTorque, mkPIDController, actualCurvature,
    interp2, frictionCompensation, pidUpdate, clip, live_tune,
    check_saturation, MIN_STEER_SPEED, FRICTION_THRESHOLD,
    ACCELERATION_DUE_TO_GRAVITY, i_rate, newPidLog, stC8, CSC1, VM0,
    lpC8, store0, abs, max_def]

end LatTorque

namespace LatTorque

/-- C1 (amended): per cycle the returned torque command is bounded by
`1 + |friction|` in magnitude: the PID output is clamped to `[-1, 1]`,
and the friction bias (of magnitude at most the friction coefficient) is
added after that clamp, so the total can leave `[-1, 1]` by up to the
friction coefficient. -/
theorem update_output_bounded_by_friction (st : LatState) (active : Bool)
    (CS : CarState) (VM : ℚ → ℚ → ℚ → ℚ) (lp : LiveParams)
    (store : ParamsStore) (dc dcr yaw : ℚ)
    (hp : st.pid.pos_limit = 1) (hn : st.pid.neg_limit = -1) :
    |(update st active CS VM lp store dc dcr yaw).2.1| ≤
      1 + |(update st active CS VM lp store dc dcr yaw).1.friction| := by
  simp only [update, live_tune]
  split_ifs <;>
    first
      | (simp only [neg_zero, abs_zero]; positivity)
      | (rw [abs_neg]
         exact le_trans (abs_add _ _) (add_le_add
           (abs_pidUpdate_out_le_one _ _ _ _ _
             (by first | exact hp | rfl) (by first | exact hn | rfl))
           (abs_frictionCompensation_le _ _)))

/-- Controller for the C1 counterexample: `k_p = 1`, friction
coefficient `1/2`. -/
def stC1 : LatState := mkLatControlTorque 1 0 0 true (1 / 2)

/-- Witness for C1 (amended) at the concrete C1 fixture. -/
theorem update_output_bounded_by_friction_witness :
    |(update stC1 true CSC1 VM0 lp0 store0 1 0 0).2.1| ≤
      1 + |(update stC1 true CSC1 VM0 lp0 store0 1 0 0).1.friction| :=
  update_output_bounded_by_friction stC1 true CSC1 VM0 lp0 store0 1 0 0
    (by norm_num [stC1, mkLatControlTorque, mkPIDController])
    (by norm_num [stC1, mkLatControlTorque, mkPIDController])

/-- Counterexample to C1 as stated: a concrete Active cycle (speed 10,
desired curvature 1, friction coefficient 1/2) returns the torque
command `-3/2`, which lies outside `[-1, 1]` — the friction bias is
added after the PID's saturation clamp and is not re-clamped. -/
theorem torque_exceeds_unit_interval :
    ¬(-1 ≤ (update stC1 true CSC1 VM0 lp0 store0 1 0 0).2.1 ∧
      (update stC1 true CSC1 VM0 lp0 store0 1 0 0).2.1 ≤ 1) := by
  norm_num [update, mkLatControlTorque, mkPIDController, actualCurvature,
    interp2, frictionCompensation, pidUpdate, clip, live_tune,
    check_saturation, MIN_STEER_SPEED, FRICTION_THRESHOLD,
    ACCELERATION_DUE_TO_GRAVITY, i_rate, newPidLog, stC1, CSC1, VM0,
    lp0, store0, abs, max_def]

end LatTorque

namespace LatTorque

/-- The live-tuning loader fires on this cycle: the (possibly re-read)
custom-tune flag is set and the incremented apply-counter reaches a
multiple of 300. -/
def liveTuneFires (st : LatState) (store : ParamsStore) : Prop :=
  (if st.custom_tune_timer + 1 > 100 then store.customLateralTune
    else st.custom_tune) = true ∧ (st.mpc_frame + 1) % 300 = 0

/-- C2 (amended): when `CS.vEgo < MIN_STEER_SPEED` or `active` is false,
`update` returns torque 0.0, angle 0.0 and a fresh diagnostic record
with the active flag false, regardless of all other inputs, and — as
long as the live-tuning loader does not fire on that cycle — the PID
controller's state is unchanged.  (If the loader fires, it replaces the
PID even on an inactive cycle.) -/
theorem inactive_bypass (st : LatState) (active : Bool) (CS : CarState)
    (VM : ℚ → ℚ → ℚ → ℚ) (lp : LiveParams) (store : ParamsStore)
    (dc dcr yaw : ℚ)
    (h : CS.vEgo < MIN_STEER_SPEED ∨ active = false)
    (hf : ¬liveTuneFires st store) :
    (update st active CS VM lp store dc dcr yaw).2.1 = 0 ∧
    (update st active CS VM lp store dc dcr yaw).2.2.1 = 0 ∧
    (update st active CS VM lp store dc dcr yaw).2.2.2 = newPidLog ∧
    (update st active CS VM lp store dc dcr yaw).1.pid = st.pid := by
  simp only [update, live_tune]
  split_ifs <;>
    first
      | (refine ⟨by norm_num, rfl, rfl, rfl⟩)
      | (exact absurd h (by assumption))
      | (exfalso; apply hf; constructor <;> simp_all [liveTuneFires])

/-- Controller for the C2 counterexample: custom tuning cached as
enabled and the apply-counter one step before 300. -/
def stC2 : LatState :=
  { mkLatControlTorque 7 0 0 true 0 with mpc_frame := 299, custom_tune := true }

/-- Store for the C2 counterexample: max-lateral-accel string value 10
(scaled to 1.0), so the reconstructed gains are 2/1/0.5. -/
def storeC2 : ParamsStore := ⟨true, 10, false, 0⟩

/-- Counterexample to C2 as stated: an inactive cycle (`active = false`)
on which the live-tuning loader fires still returns torque 0 with the
active flag false, but replaces the PID controller (here the
proportional gain changes from 7 to 2), so the Closed-Loop Controller's
state is not unchanged. -/
theorem inactive_cycle_mutates_pid :
    (update stC2 false CSC1 VM0 lp0 storeC2 0 0 0).2.1 = 0 ∧
    (update stC2 false CSC1 VM0 lp0 storeC2 0 0 0).2.2.2.active = false ∧
    (update stC2 false CSC1 VM0 lp0 storeC2 0 0 0).1.pid ≠ stC2.pid := by
  norm_num [update, mkLatControlTorque, mkPIDController, live_tune,
    newPidLog, stC2, CSC1, VM0, lp0, storeC2, PIDState.mk.injEq]

/-- A vehicle state below the minimum steer speed (0.1 m/s). -/
def CSlow : CarState := ⟨1 / 10, 0, false, false⟩

/-- Witness for C2 (amended): a freshly constructed controller at speed
0.1 m/s bypasses the cycle. -/
theorem inactive_bypass_witness :
    (update (mkLatControlTorque 3 1 1 true (1 / 4)) true CSlow VM0 lp0 store0 0 0 0).2.1 = 0 ∧
    (update (mkLatControlTorque 3 1 1 true (1 / 4)) true CSlow VM0 lp0 store0 0 0 0).2.2.1 = 0 ∧
    (update (mkLatControlTorque 3 1 1 true (1 / 4)) true CSlow VM0 lp0 store0 0 0 0).2.2.2 = newPidLog ∧
    (update (mkLatControlTorque 3 1 1 true (1 / 4)) true CSlow VM0 lp0 store0 0 0 0).1.pid =
      (mkLatControlTorque 3 1 1 true (1 / 4)).pid :=
  inactive_bypass _ true CSlow VM0 lp0 store0 0 0 0
    (Or.inl (by norm_num [CSlow, MIN_STEER_SPEED]))
    (by norm_num [liveTuneFires, mkLatControlTorque])

end LatTorque

namespace LatTorque

/-- Store for the C3 fixture: the persisted custom-tuning flag is set. -/
def storeC3 : ParamsStore := ⟨true, 30, false, 50⟩

/-- A freshly constructed controller (counters zero, cached flag off). -/
def initC3 : LatState := mkLatControlTorque 1 0 0 true 0

/-- One inactive control cycle against the C3 fixture store. -/
def stepC3 (st : LatState) : LatState :=
  (update st false CSC1 VM0 lp0 storeC3 0 0 0).1

/-- The controller state after `n` cycles from construction. -/
def iterC3 : ℕ → LatState
  | 0 => initC3
  | n + 1 => stepC3 (iterC3 n)

lemma stepC3_eq_of_not_tuned (st : LatState)
    (h1 : st.custom_tune_timer + 1 ≤ 100) (h2 : st.custom_tune = false) :
    stepC3 st = { st with custom_tune_timer := st.custom_tune_timer + 1 } := by
  have ha : ¬(st.custom_tune_timer + 1 > 100) := by omega
  simp [stepC3, update, live_tune, ha, h2]

lemma stepC3_eq_of_tuned (st : LatState)
    (h1 : st.custom_tune_timer + 1 ≤ 100) (h2 : st.custom_tune = true)
    (h3 : (st.mpc_frame + 1) % 300 ≠ 0) :
    stepC3 st = { st with custom_tune_timer := st.custom_tune_timer + 1,
                          mpc_frame := st.mpc_frame + 1 } := by
  have ha : ¬(st.custom_tune_timer + 1 > 100) := by omega
  simp [stepC3, update, live_tune, ha, h2, h3]

lemma iterC3_le_100 (n : ℕ) (h : n ≤ 100) :
    iterC3 n = { initC3 with custom_tune_timer := n } := by
  induction n with
  | zero => rfl
  | succ k ih =>
    have hk : k ≤ 100 := by omega
    rw [iterC3, ih hk, stepC3_eq_of_not_tuned _ (by simpa using h) rfl]

lemma iterC3_101 :
    iterC3 101 = { initC3 with custom_tune := true, custom_tune_timer := 0,
                               mpc_frame := 1 } := by
  rw [show iterC3 101 = stepC3 (iterC3 100) from rfl, iterC3_le_100 100 le_rfl]
  norm_num [stepC3, update, live_tune, initC3, mkLatControlTorque,
    mkPIDController, storeC3]

lemma iterC3_101_add (k : ℕ) (h : k ≤ 100) :
    iterC3 (101 + k) =
      { initC3 with custom_tune := true, custom_tune_timer := k,
                    mpc_frame := k + 1 } := by
  induction k with
  | zero => simpa using iterC3_101
  | succ j ih =>
    have hj : j ≤ 100 := by omega
    rw [show 101 + (j + 1) = (101 + j) + 1 from rfl, iterC3, ih hj,
      stepC3_eq_of_tuned _ (by simpa using h) rfl (by simp; omega)]

lemma iterC3_202 :
    (iterC3 202).custom_tune = true ∧ (iterC3 202).custom_tune_timer = 0 := by
  rw [show iterC3 202 = stepC3 (iterC3 (101 + 100)) from rfl,
    iterC3_101_add 100 le_rfl]
  norm_num [stepC3, update, live_tune, initC3, mkLatControlTorque,
    mkPIDController, storeC3]

/-- C3 (amended): starting from a freshly constructed controller, the
toggle-poll counter increments by one per call while it stays ≤ 100
and no re-read of the stored flag happens during the first 100 cycles;
the re-read and counter reset first occur on the 101st cycle (the
counter must exceed 100), and the next reset falls on cycle 202 — the
poll period is 101 cycles, not 100. -/
theorem toggle_poll_period (n : ℕ) (hn : n ≤ 100) :
    (iterC3 n).custom_tune_timer = n ∧
    (iterC3 n).custom_tune = false ∧
    (iterC3 101).custom_tune = true ∧
    (iterC3 101).custom_tune_timer = 0 ∧
    (iterC3 202).custom_tune = true ∧
    (iterC3 202).custom_tune_timer = 0 := by
  refine ⟨?_, ?_, ?_, ?_, iterC3_202.1, iterC3_202.2⟩ <;>
    simp [iterC3_le_100 n hn, iterC3_101, initC3, mkLatControlTorque]

/-- Witness for C3 (amended) at `n = 100`. -/
theorem toggle_poll_period_witness :
    (iterC3 100).custom_tune_timer = 100 ∧
    (iterC3 100).custom_tune = false ∧
    (iterC3 101).custom_tune = true ∧
    (iterC3 101).custom_tune_timer = 0 ∧
    (iterC3 202).custom_tune = true ∧
    (iterC3 202).custom_tune_timer = 0 :=
  toggle_poll_period 100 (by norm_num)

/-- Counterexample to C3 as stated: although the persisted flag is set,
the 100th cycle from construction has not re-read it (the cached flag is
still false after 100 cycles) — the re-read does not occur on every
100th cycle. -/
theorem toggle_poll_not_on_100th :
    (iterC3 100).custom_tune = false ∧ storeC3.customLateralTune = true := by
  constructor
  · simp [iterC3_le_100 100 le_rfl, initC3, mkLatControlTorque]
  · rfl

end LatTorque

namespace LatTorque

lemma interp2_low_speed (v : ℚ) :
    interp2 v 0 15 500 0 =
      if v ≤ 0 then 500 else if 15 ≤ v then 0 else 500 - 100 / 3 * v := by
  unfold interp2
  split_ifs <;> try rfl
  ring

/-- C4: in the Active state (no tuning event this cycle), with
`low_speed_factor = interp(speed, [0,15], [500,0])` clamped at the ends,
`update` computes
`error = (desired_curvature·v² + lsf·desired_curvature) −
(actual_curvature·v² + lsf·actual_curvature)` and
`feedforward = desired_curvature·v² − roll·g`, and passes exactly these
two values to the PID update; the returned torque is the negation of
that PID output plus the friction compensation of the same error. -/
theorem error_feedforward_formation (st : LatState) (CS : CarState)
    (VM : ℚ → ℚ → ℚ → ℚ) (lp : LiveParams) (store : ParamsStore)
    (dc dcr yaw : ℚ) (hv : ¬(CS.vEgo < MIN_STEER_SPEED))
    (ht : st.custom_tune_timer + 1 ≤ 100) (hc : st.custom_tune = false) :
    let v := CS.vEgo
    let AC := actualCurvature st.use_steering_angle VM CS lp yaw
    let lsf : ℚ := if v ≤ 0 then 500 else if 15 ≤ v then 0 else 500 - 100 / 3 * v
    let E := (dc * v ^ 2 + lsf * dc) - (AC * v ^ 2 + lsf * AC)
    let F := dc * v ^ 2 - lp.roll * ACCELERATION_DUE_TO_GRAVITY
    let frz := CS.steeringRateLimited || CS.steeringPressed || decide (v < 5)
    (update st true CS VM lp store dc dcr yaw).2.2.2.error = E ∧
    (update st true CS VM lp store dc dcr yaw).1.pid =
      (pidUpdate st.pid E F v frz).1 ∧
    (update st true CS VM lp store dc dcr yaw).2.1 =
      -((pidUpdate st.pid E F v frz).2 + frictionCompensation E st.friction) := by
  have ha : ¬(st.custom_tune_timer + 1 > 100) := by omega
  simp [update, ha, hc, hv, interp2_low_speed]

/-- Witness for C4 at a concrete Active cycle (fresh controller with
unit gains, speed 10, desired curvature 1/100). -/
theorem error_feedforward_formation_witness :
    let v := CSC1.vEgo
    let AC := actualCurvature (mkLatControlTorque 1 1 1 true 0).use_steering_angle VM0 CSC1 lp0 0
    let lsf : ℚ := if v ≤ 0 then 500 else if 15 ≤ v then 0 else 500 - 100 / 3 * v
    let E := (1 / 100 * v ^ 2 + lsf * (1 / 100)) - (AC * v ^ 2 + lsf * AC)
    let F := 1 / 100 * v ^ 2 - lp0.roll * ACCELERATION_DUE_TO_GRAVITY
    let frz := CSC1.steeringRateLimited || CSC1.steeringPressed || decide (v < 5)
    (update (mkLatControlTorque 1 1 1 true 0) true CSC1 VM0 lp0 store0 (1 / 100) 0 0).2.2.2.error = E ∧
    (update (mkLatControlTorque 1 1 1 true 0) true CSC1 VM0 lp0 store0 (1 / 100) 0 0).1.pid =
      (pidUpdate (mkLatControlTorque 1 1 1 true 0).pid E F v frz).1 ∧
    (update (mkLatControlTorque 1 1 1 true 0) true CSC1 VM0 lp0 store0 (1 / 100) 0 0).2.1 =
      -((pidUpdate (mkLatControlTorque 1 1 1 true 0).pid E F v frz).2 +
        frictionCompensation E (mkLatControlTorque 1 1 1 true 0).friction) :=
  error_feedforward_formation (mkLatControlTorque 1 1 1 true 0) CSC1 VM0 lp0
    store0 (1 / 100) 0 0 (by norm_num [CSC1, MIN_STEER_SPEED])
    (by norm_num [mkLatControlTorque]) (by norm_num [mkLatControlTorque])

/-- C6: with custom tuning enabled (cached flag true, no toggle re-read
this cycle), `update` routes the tuning state through `live_tune`, whose
apply-counter increments by one per cycle; exactly when the incremented
counter reaches a multiple of 300, the three stored values are re-read
(max-lateral-accel scaled by 1/10 and friction by 1/100, exactly), the
PID is replaced by a fresh controller with gains `2/mla`, `1/mla`,
`0.5/mla` and limits ±1 (integral accumulator cleared), the flags are
updated, and the counter resets to 0; otherwise no tuning field
changes. -/
theorem live_tune_applies_every_300 (st : LatState) (store : ParamsStore)
    (active : Bool) (CS : CarState) (VM : ℚ → ℚ → ℚ → ℚ) (lp : LiveParams)
    (dc dcr yaw : ℚ) (ht : st.custom_tune_timer + 1 ≤ 100)
    (hc : st.custom_tune = true) :
    ((st.mpc_frame + 1) % 300 = 0 →
      live_tune st store =
        { st with
          use_steering_angle := store.torqueUseSteeringAngle,
          friction := store.torqueFriction * (1 / 100),
          pid := mkPIDController (2 / (store.torqueMaxLatAccel * (1 / 10)))
            (1 / (store.torqueMaxLatAccel * (1 / 10)))
            (1 / 2 / (store.torqueMaxLatAccel * (1 / 10))) 1 (-1),
          mpc_frame := 0 } ∧
      (live_tune st store).pid.i = 0) ∧
    ((st.mpc_frame + 1) % 300 ≠ 0 →
      live_tune st store = { st with mpc_frame := st.mpc_frame + 1 }) ∧
    (update st active CS VM lp store dc dcr yaw).1.mpc_frame =
      (live_tune { st with custom_tune_timer := st.custom_tune_timer + 1 } store).mpc_frame ∧
    (update st active CS VM lp store dc dcr yaw).1.friction =
      (live_tune { st with custom_tune_timer := st.custom_tune_timer + 1 } store).friction ∧
    (update st active CS VM lp store dc dcr yaw).1.use_steering_angle =
      (live_tune { st with custom_tune_timer := st.custom_tune_timer + 1 } store).use_steering_angle ∧
    (update st active CS VM lp store dc dcr yaw).1.pid.k_p =
      (live_tune { st with custom_tune_timer := st.custom_tune_timer + 1 } store).pid.k_p ∧
    (update st active CS VM lp store dc dcr yaw).1.pid.k_i =
      (live_tune { st with custom_tune_timer := st.custom_tune_timer + 1 } store).pid.k_i ∧
    (update st active CS VM lp store dc dcr yaw).1.pid.k_f =
      (live_tune { st with custom_tune_timer := st.custom_tune_timer + 1 } store).pid.k_f := by
  have ha : ¬(st.custom_tune_timer + 1 > 100) := by omega
  refine ⟨fun h => ⟨?_, ?_⟩, fun h => ?_, ?_, ?_, ?_, ?_, ?_, ?_⟩
  · norm_num [live_tune, h, mkPIDController, LatState.mk.injEq]
  · simp [live_tune, h, mkPIDController]
  · simp [live_tune, h]
  all_goals simp [update, live_tune, pidUpdate, ha, hc]
  all_goals split_ifs <;> simp [mkPIDController]

/-- Controller for the C6 witness: custom tuning cached as enabled and
the apply-counter one step before 300. -/
def stC6 : LatState :=
  { mkLatControlTorque 1 1 1 true 0 with mpc_frame := 299, custom_tune := true }

/-- Store for the C6 witness: max-lateral-accel string value 25 (scaled
to 2.5) and friction string value 40 (scaled to 0.4). -/
def storeC6 : ParamsStore := ⟨true, 25, false, 40⟩

/-- Witness for C6: on the 300th increment the pid is rebuilt from the
scaled store values and the integral accumulator is cleared. -/
theorem live_tune_applies_every_300_witness :
    live_tune stC6 storeC6 =
      { stC6 with
        use_steering_angle := storeC6.torqueUseSteeringAngle,
        friction := storeC6.torqueFriction * (1 / 100),
        pid := mkPIDController (2 / (storeC6.torqueMaxLatAccel * (1 / 10)))
          (1 / (storeC6.torqueMaxLatAccel * (1 / 10)))
          (1 / 2 / (storeC6.torqueMaxLatAccel * (1 / 10))) 1 (-1),
        mpc_frame := 0 } ∧
    (live_tune stC6 storeC6).pid.i = 0 :=
  (live_tune_applies_every_300 stC6 storeC6 false CSC1 VM0 lp0 0 0 0
    (by norm_num [stC6, mkLatControlTorque])
    (by norm_num [stC6, mkLatControlTorque])).1
    (by norm_num [stC6, mkLatControlTorque])

end LatTorque
